import Mathlib

/-!
Verification development for the MCP protocol handler and transport layer
(`src/protocol/messages.py`, `src/protocol/handler.py`, `src/transport/base.py`,
`src/transport/http.py`).

Decoded JSON payloads are modelled by the `Json` inductive; Python dicts of
decoded messages are `Json.obj` association lists.  Python exceptions are
modelled by `PyErr`, distinguishing pydantic `ValidationError` from every
other exception (the handler's `except` clauses branch on exactly that).
Async futures are modelled by `FutureState`; the points where the code
awaits a future are parameterised by an `AwaitOutcome` oracle.
-/

inductive Json where
  | null
  | bool (b : Bool)
  | int (n : Int)
  | str (s : String)
  | arr (xs : List Json)
  | obj (fields : List (String × Json))

/-- Python exceptions as seen by the handler's `except` clauses:
pydantic `ValidationError` versus any other `Exception`. -/
inductive PyErr where
  | validation (msg : String)
  | generic (msg : String)
deriving DecidableEq

def PyErr.msg : PyErr → String
  | .validation m => m
  | .generic m => m

def Json.isObj : Json → Bool
  | .obj _ => true
  | _ => false

/-- Key membership, Python `k in d` on a decoded dict (a JSON null value
still counts: the key is present). -/
def Json.hasKey (j : Json) (k : String) : Bool :=
  match j with
  | .obj fs => (fs.lookup k).isSome
  | _ => false

/-- Raw field lookup on a decoded dict, distinguishing an absent key from a
key bound to JSON null. -/
def Json.lookupField (j : Json) (k : String) : Option Json :=
  match j with
  | .obj fs => fs.lookup k
  | _ => none

/-- Python `d.get(k)`: JSON null decodes to Python `None`, and `get` returns
`None` both when the key is absent and when its value is `None`, so the two
collapse. Modelled only for dicts. -/
def Json.pyGet (j : Json) (k : String) : Option Json :=
  match j.lookupField k with
  | some .null => none
  | v => v

/-- Python `d.get(k, default)`. -/
def Json.pyGetD (j : Json) (k : String) (d : Json) : Json :=
  (j.pyGet k).getD d

/-- Python truthiness of a decoded JSON value. -/
def jsonTruthy : Json → Bool
  | .null => false
  | .bool b => b
  | .int n => n != 0
  | .str s => !s.isEmpty
  | .arr xs => !xs.isEmpty
  | .obj fs => !fs.isEmpty

/-- Python `str()` of a scalar decoded JSON value (containers abbreviated;
only scalars reach the string-formatting sites modelled here). -/
def jsonPyStr : Json → String
  | .null => "None"
  | .bool true => "True"
  | .bool false => "False"
  | .int n => toString n
  | .str s => s
  | .arr _ => "<list>"
  | .obj _ => "<dict>"

/-- A single quote character, used in the source's error-message literals. -/
def sglQuote : String := String.singleton (Char.ofNat 39)

/-- Association-list update with Python dict semantics: replace the binding
if the key is present, else append. -/
def insertKey {α : Type} (l : List (String × α)) (k : String) (v : α) : List (String × α) :=
  match l with
  | [] => [(k, v)]
  | (k0, v0) :: rest => if k0 == k then (k, v) :: rest else (k0, v0) :: insertKey rest k v

/-- Association-list removal, Python `d.pop(k, None)`. -/
def removeKey {α : Type} (l : List (String × α)) (k : String) : List (String × α) :=
  l.filter (fun p => !(p.1 == k))

/-- Association-list lookup, Python `d.get(k)` on a `str`-keyed dict. -/
def lookupKey {α : Type} (l : List (String × α)) (k : String) : Option α :=
  match l with
  | [] => none
  | (k0, v0) :: rest => if k0 == k then some v0 else lookupKey rest k

/-! ### Error codes (`messages.py`, `ErrorCode`) -/

def ErrorCode.PARSE_ERROR : Int := -32700
def ErrorCode.INVALID_REQUEST : Int := -32600
def ErrorCode.METHOD_NOT_FOUND : Int := -32601
def ErrorCode.INVALID_PARAMS : Int := -32602
def ErrorCode.INTERNAL_ERROR : Int := -32603
def ErrorCode.TOOL_ERROR : Int := -32001
def ErrorCode.RESOURCE_ERROR : Int := -32002
def ErrorCode.TIMEOUT_ERROR : Int := -32003

/-! ### Message models (`messages.py`) -/

structure MCPError where
  code : Int
  message : String
  data : Option Json

structure MCPRequest where
  id : Json
  method : String
  params : Option Json

structure MCPResponse where
  id : Json
  result : Option Json
  error : Option MCPError

/-- pydantic `Union[str, int]` for the `id` field: a string or an integer. -/
def isValidId : Json → Bool
  | .str _ => true
  | .int _ => true
  | _ => false

/-- pydantic `Optional[Dict[str, Any]]` for the `result` field. -/
def resultFieldValid : Option Json → Bool
  | none => true
  | some (.obj _) => true
  | some _ => false

def msgNeither : String :=
  "Either " ++ sglQuote ++ "result" ++ sglQuote ++ " or " ++ sglQuote ++ "error" ++ sglQuote ++ " must be present"

def msgBoth : String :=
  "Both " ++ sglQuote ++ "result" ++ sglQuote ++ " and " ++ sglQuote ++ "error" ++ sglQuote ++ " cannot be present"

/-- `MCPResponse(id=..., result=..., error=...)`: pydantic field validation
followed by `model_post_init`, which enforces exactly one of
`result`/`error`.  A field-type failure is a `ValidationError`; the
post-init `ValueError` is a plain exception. -/
def MCPResponse.make (id : Json) (result : Option Json) (error : Option MCPError) :
    Except PyErr MCPResponse :=
  if !isValidId id then .error (.validation "id must be a string or an integer")
  else if !resultFieldValid result then .error (.validation "result must be an object")
  else if result.isNone && error.isNone then .error (.generic msgNeither)
  else if result.isSome && error.isSome then .error (.generic msgBoth)
  else .ok ⟨id, result, error⟩

/-- The `jsonrpc` field of `MCPMessage`: defaulted to `"2.0"` when absent,
and required to match the pattern `^2\.0$` when present. -/
def jsonrpcFieldOk (raw : Json) : Bool :=
  match raw.lookupField "jsonrpc" with
  | none => true
  | some (.str s) => s == "2.0"
  | some _ => false

/-- `MCPRequest.model_validate(raw)`.  Scalar lax coercions of pydantic
(e.g. numeric strings to int) are not modelled; the fields here are used
with their decoded JSON types throughout the source. -/
def validateRequest (raw : Json) : Except PyErr MCPRequest :=
  if !raw.isObj then .error (.validation "input is not an object")
  else if !jsonrpcFieldOk raw then .error (.validation "jsonrpc version mismatch")
  else
    match raw.lookupField "id" with
    | none => .error (.validation "id field required")
    | some idv =>
      if !isValidId idv then .error (.validation "id must be a string or an integer")
      else
        match raw.lookupField "method" with
        | some (.str m) =>
          (match raw.lookupField "params" with
           | none => .ok ⟨idv, m, none⟩
           | some .null => .ok ⟨idv, m, none⟩
           | some (.obj fs) => .ok ⟨idv, m, some (.obj fs)⟩
           | some _ => .error (.validation "params must be an object"))
        | _ => .error (.validation "method must be a string")

structure MCPNotifMsg where
  method : String
  params : Option Json

/-- `MCPNotification.model_validate(raw)`. -/
def validateNotif (raw : Json) : Except PyErr MCPNotifMsg :=
  if !raw.isObj then .error (.validation "input is not an object")
  else if !jsonrpcFieldOk raw then .error (.validation "jsonrpc version mismatch")
  else
    match raw.lookupField "method" with
    | some (.str m) =>
      (match raw.lookupField "params" with
       | none => .ok ⟨m, none⟩
       | some .null => .ok ⟨m, none⟩
       | some (.obj fs) => .ok ⟨m, some (.obj fs)⟩
       | some _ => .error (.validation "params must be an object"))
    | _ => .error (.validation "method must be a string")

/-- `MCPError.model_validate` of the `error` sub-object of a response. -/
def validateMCPError (v : Json) : Except PyErr MCPError :=
  match v.lookupField "code", v.lookupField "message" with
  | some (.int c), some (.str m) =>
    (match v.lookupField "data" with
     | none => .ok ⟨c, m, none⟩
     | some .null => .ok ⟨c, m, none⟩
     | some (.obj fs) => .ok ⟨c, m, some (.obj fs)⟩
     | some _ => .error (.validation "error.data must be an object"))
  | _, _ => .error (.validation "error must carry an integer code and a string message")

/-- `MCPResponse.model_validate(raw)`: field validation, then
`model_post_init` (exactly one of `result`/`error`). -/
def validateResponse (raw : Json) : Except PyErr MCPResponse :=
  if !raw.isObj then .error (.validation "input is not an object")
  else if !jsonrpcFieldOk raw then .error (.validation "jsonrpc version mismatch")
  else
    match raw.lookupField "id" with
    | none => .error (.validation "id field required")
    | some idv =>
      if !isValidId idv then .error (.validation "id must be a string or an integer")
      else
        match
          (match raw.lookupField "result" with
           | none => Except.ok (none : Option Json)
           | some .null => Except.ok none
           | some (.obj fs) => Except.ok (some (.obj fs))
           | some _ => Except.error (PyErr.validation "result must be an object")),
          (match raw.lookupField "error" with
           | none => Except.ok (none : Option MCPError)
           | some .null => Except.ok none
           | some v => (validateMCPError v).map some) with
        | .ok r, .ok e =>
          if r.isNone && e.isNone then .error (.generic msgNeither)
          else if r.isSome && e.isSome then .error (.generic msgBoth)
          else .ok ⟨idv, r, e⟩
        | .error pe, _ => .error pe
        | _, .error pe => .error pe

/-! ### Protocol handler state (`handler.py`) -/

/-- The lifecycle of an `asyncio.Future` as observed by this code:
unresolved, resolved with a result, or failed with an exception message. -/
inductive FutureState where
  | pending
  | result (r : Json)
  | failed (e : String)

/-- The outcome of an awaited handler coroutine: a returned value (`none`
models Python `None`) or a raised exception. -/
inductive HandlerOutcome where
  | ok (result : Option Json)
  | raised (msg : String)

/-- `ProtocolHandler.__init__`: dispatch tables, running flag, correlation
table from string ids to pending futures, and the id sequence counter. -/
structure HandlerState where
  running : Bool
  requestHandlers : List (String × (Json → HandlerOutcome))
  notificationHandlers : List (String × (Json → HandlerOutcome))
  pendingRequests : List (String × FutureState)
  sequenceNumber : Nat

/-- `ProtocolHandler.register_request_handler`. -/
def ProtocolHandler.registerRequestHandler (st : HandlerState) (method : String)
    (h : Json → HandlerOutcome) : HandlerState :=
  { st with requestHandlers := insertKey st.requestHandlers method h }

/-- `ProtocolHandler.register_notification_handler`. -/
def ProtocolHandler.registerNotificationHandler (st : HandlerState) (method : String)
    (h : Json → HandlerOutcome) : HandlerState :=
  { st with notificationHandlers := insertKey st.notificationHandlers method h }

/-- `ProtocolHandler._next_sequence_number`. -/
def ProtocolHandler.nextSequenceNumber (st : HandlerState) : HandlerState × Nat :=
  ({ st with sequenceNumber := st.sequenceNumber + 1 }, st.sequenceNumber + 1)

/-- Python `request.params or {}`: `None` and the falsy empty dict both
become the empty dict. -/
def paramsOrEmpty : Option Json → Json
  | none => .obj []
  | some p => if jsonTruthy p then p else .obj []

/-- Python `response.result or {}` in `_handle_response`. -/
def resultOrEmpty : Option Json → Json
  | none => .obj []
  | some r => if jsonTruthy r then r else .obj []

/-- `ProtocolHandler.send_response`: rejects when not running, constructs an
`MCPResponse` and transmits it (transmission itself is modelled as
succeeding); returns the transmitted response or the exception raised. -/
def ProtocolHandler.sendResponse (st : HandlerState) (requestId : Json)
    (result : Option Json) (error : Option MCPError) : Except PyErr MCPResponse :=
  if !st.running then .error (.generic "Protocol handler not running")
  else MCPResponse.make requestId result error

/-- `ProtocolHandler._send_error_response`: returns silently when no id was
recovered (there is no one to answer), else sends one error response. -/
def ProtocolHandler.sendErrorResponse (st : HandlerState) (requestId : Option Json)
    (code : Int) (message : String) (data : Option Json) : Except PyErr (List MCPResponse) :=
  match requestId with
  | none => .ok []
  | some rid =>
    match ProtocolHandler.sendResponse st rid none (some ⟨code, message, data⟩) with
    | .ok resp => .ok [resp]
    | .error e => .error e

/-- `ProtocolHandler._handle_request`: validate the payload as a request,
dispatch to the registered request handler, and send the response.  On the
success path the id transmitted is `str(request.id)`; every error path
passes `request.id` unchanged.  Returns the responses transmitted, or the
exception escaping to `_process_message`. -/
def ProtocolHandler.handleRequest (st : HandlerState) (raw : Json) :
    Except PyErr (List MCPResponse) :=
  match validateRequest raw with
  | .ok req =>
    (match lookupKey st.requestHandlers req.method with
     | none =>
       ProtocolHandler.sendErrorResponse st (some req.id) ErrorCode.METHOD_NOT_FOUND
         ("Method " ++ sglQuote ++ req.method ++ sglQuote ++ " not found") none
     | some h =>
       match h (paramsOrEmpty req.params) with
       | .raised e =>
         ProtocolHandler.sendErrorResponse st (some req.id) ErrorCode.INTERNAL_ERROR e none
       | .ok result =>
         match ProtocolHandler.sendResponse st (.str (jsonPyStr req.id)) result none with
         | .ok resp => .ok [resp]
         | .error e =>
           ProtocolHandler.sendErrorResponse st (some req.id) ErrorCode.INTERNAL_ERROR e.msg none)
  | .error (.validation _) =>
    ProtocolHandler.sendErrorResponse st (raw.pyGet "id") ErrorCode.INVALID_REQUEST
      "Invalid request format" none
  | .error (.generic m) => .error (.generic m)

/-- `ProtocolHandler._handle_response`: resolve the pending future keyed by
`str(response.id)`; an unknown or already-done future is logged and
discarded.  Only a `ValidationError` is caught here; the post-init error of
`MCPResponse.model_validate` escapes. -/
def ProtocolHandler.handleResponse (st : HandlerState) (raw : Json) :
    Except PyErr HandlerState :=
  match validateResponse raw with
  | .error (.validation _) => .ok st
  | .error (.generic m) => .error (.generic m)
  | .ok resp =>
    match lookupKey st.pendingRequests (jsonPyStr resp.id) with
    | none => .ok st
    | some FutureState.pending =>
      (match resp.error with
       | some e =>
         let f := FutureState.failed ("RPC Error " ++ toString e.code ++ ": " ++ e.message)
         .ok { st with pendingRequests := insertKey st.pendingRequests (jsonPyStr resp.id) f }
       | none =>
         let f := FutureState.result (resultOrEmpty resp.result)
         .ok { st with pendingRequests := insertKey st.pendingRequests (jsonPyStr resp.id) f })
    | some _ => .ok st

/-- What `_handle_notification` did with the payload (all branches only
log; none sends anything). -/
inductive NotifOutcome where
  | invalid
  | noHandler
  | handled
  | handlerFailed (e : String)

/-- `ProtocolHandler._handle_notification`: validate, look up the
notification handler, invoke it with any exception caught and logged.
Returns the responses transmitted (none, on every branch) and which branch
ran. -/
def ProtocolHandler.handleNotification (st : HandlerState) (raw : Json) :
    List MCPResponse × NotifOutcome :=
  match validateNotif raw with
  | .error _ => ([], .invalid)
  | .ok notif =>
    match lookupKey st.notificationHandlers notif.method with
    | none => ([], .noHandler)
    | some h =>
      match h (paramsOrEmpty notif.params) with
      | .ok _ => ([], .handled)
      | .raised e => ([], .handlerFailed e)

/-- The test `raw_message.get("jsonrpc") != "2.0"`, negated: true exactly
when the recovered field is the string `"2.0"`. -/
def isJsonrpc20 : Option Json → Bool
  | some (.str s) => s == "2.0"
  | _ => false

/-- `ProtocolHandler._process_message`: the classification of one decoded
inbound payload together with the surrounding `except ValidationError` /
`except Exception` clauses.  Returns the state after processing and either
the list of responses transmitted or the exception that escaped to
`_message_loop` (which only logs it). -/
def ProtocolHandler.processMessage (st : HandlerState) (raw : Json) :
    HandlerState × Except PyErr (List MCPResponse) :=
  let body : HandlerState × Except PyErr (List MCPResponse) :=
    if !raw.isObj then (st, .error (.generic "Message must be a JSON object"))
    else if !isJsonrpc20 (raw.pyGet "jsonrpc") then
      (st, .error (.generic "Invalid JSON-RPC version"))
    else if raw.hasKey "id" then
      if raw.hasKey "method" then (st, ProtocolHandler.handleRequest st raw)
      else
        match ProtocolHandler.handleResponse st raw with
        | .ok st1 => (st1, .ok [])
        | .error e => (st, .error e)
    else if raw.hasKey "method" then (st, .ok (ProtocolHandler.handleNotification st raw).1)
    else (st, .error (.generic "Invalid message structure"))
  match body with
  | (st1, .ok sent) => (st1, .ok sent)
  | (st1, .error e) =>
    -- the except clauses re-read `raw_message.get("id")`; on a non-dict
    -- payload that attribute access itself raises
    if !raw.isObj then (st1, .error (.generic "AttributeError: get"))
    else
      match e with
      | .validation m =>
        (st1, ProtocolHandler.sendErrorResponse st1 (raw.pyGet "id") ErrorCode.INVALID_REQUEST
          "Invalid request" (some (.obj [("validation_errors", .str m)])))
      | .generic _ =>
        (st1, ProtocolHandler.sendErrorResponse st1 (raw.pyGet "id") ErrorCode.INTERNAL_ERROR
          "Internal error" none)

/-- The possible completions of `await asyncio.wait_for(future, timeout)`
inside `send_request`: the future resolved, the future was failed, or the
wait timed out. -/
inductive AwaitOutcome where
  | resolved (r : Json)
  | failed (e : String)
  | timedOut

/-- Awaiting the response future in `send_request`: a resolved future
returns its value, a failed future re-raises its exception, and
`asyncio.TimeoutError` is converted to the timeout `MessageError` naming
the method and the duration.  Durations are modelled in whole units (the
source's float seconds). -/
def awaitResult (method : String) (timeout : Nat) : AwaitOutcome → Except PyErr Json
  | .resolved r => .ok r
  | .failed e => .error (.generic e)
  | .timedOut =>
    .error (.generic ("Request " ++ method ++ " timed out after " ++ toString timeout ++ "s"))

/-- `ProtocolHandler.send_request`, with the await point parameterised by an
`AwaitOutcome` oracle: allocate the next id, insert the pending future
under `str(request_id)`, transmit the request (transmission modelled as
succeeding), await, and pop the entry in the `finally` block on every exit
path.  Returns the state after the `finally` block and the call's result. -/
def ProtocolHandler.sendRequest (st : HandlerState) (method : String)
    (params : Option Json) (timeout : Nat) (outcome : AwaitOutcome) :
    HandlerState × Except PyErr Json :=
  if !st.running then (st, .error (.generic "Protocol handler not running"))
  else
    let (st1, requestId) := ProtocolHandler.nextSequenceNumber st
    let _request : MCPRequest := ⟨Json.int (Int.ofNat requestId), method, params⟩
    let key := toString requestId
    let st2 := { st1 with pendingRequests := insertKey st1.pendingRequests key .pending }
    let res := awaitResult method timeout outcome
    ({ st2 with pendingRequests := removeKey st2.pendingRequests key }, res)

/-- The body of the cancellation loop in `stop`: a not-yet-done future is
failed with the handler-stopped `MessageError`; done futures are left
untouched. -/
def stopFuture : FutureState → FutureState
  | .pending => .failed "Protocol handler stopped"
  | f => f

/-- `ProtocolHandler.stop`: a no-op when already stopped; otherwise clear
the running flag, cancel the consumption task, fail every not-yet-done
pending future with the "handler stopped" error and clear the correlation
table.  The second component is the futures as their waiting callers
observe them after the call (callers hold references independent of the
cleared table). -/
def ProtocolHandler.stop (st : HandlerState) :
    HandlerState × List (String × FutureState) :=
  if !st.running then (st, st.pendingRequests)
  else
    ({ st with running := false, pendingRequests := [] },
     st.pendingRequests.map (fun p => (p.1, stopFuture p.2)))

/-! ### Transport base class (`transport/base.py`) -/

/-- The mutable correlation state of `Transport.__init__`: the message-id
counter and the `str`-keyed pending-request table. -/
structure TransportState where
  messageId : Nat
  pendingRequests : List (String × FutureState)

/-- `Transport._next_message_id`: increments the counter and returns it as
a string. -/
def Transport.nextMessageId (t : TransportState) : TransportState × String :=
  ({ t with messageId := t.messageId + 1 }, toString (t.messageId + 1))

/-- The insertion phase of `Transport.send_request`: allocate the next
string message id and store a fresh pending future under it. -/
def Transport.sendRequestInsert (t : TransportState) : TransportState × String :=
  let (t1, mid) := Transport.nextMessageId t
  ({ t1 with pendingRequests := insertKey t1.pendingRequests mid .pending }, mid)

/-- `str(error.get("code"))` and `str(error.get("message"))` interpolation
in `Transport._handle_response`. -/
def transportRpcError (e : Json) : String :=
  "RPC Error " ++ jsonPyStr (e.pyGetD "code" .null) ++ ": " ++
    jsonPyStr (e.pyGetD "message" .null)

/-- `Transport._handle_response`: reads `message.get("id")` and requires
`message_id and message_id in self._pending_requests` before resolving.
The table keys are strings (`_next_message_id` returns `str`), and a
non-string inbound id value is never equal to a string key of a Python
dict, so only a string id can ever pass the membership test. -/
def Transport.handleResponse (t : TransportState) (message : Json) : TransportState :=
  match message.pyGet "id" with
  | none => t
  | some idv =>
    if !jsonTruthy idv then t
    else
      match idv with
      | .str s =>
        (match lookupKey t.pendingRequests s with
         | none => t
         | some _ =>
           if message.hasKey "error" then
             let f := FutureState.failed (transportRpcError (message.pyGetD "error" .null))
             { t with pendingRequests := insertKey t.pendingRequests s f }
           else
             let f := FutureState.result (message.pyGetD "result" (.obj []))
             { t with pendingRequests := insertKey t.pendingRequests s f })
      | _ => t

/-! ### HTTP polling transport (`transport/http.py`) -/

/-- One poll of the session-scoped `/messages` endpoint: it either returned
a (possibly empty) batch of decoded messages, or failed with an
`httpx.HTTPError`. -/
inductive PollResult where
  | msgs (ms : List Json)
  | httpError (e : String)

/-- One iteration of `HttpTransport.receive_messages` as a step function:
given the configured poll interval, whether the transport has been closed,
and the poll's outcome, it returns the messages yielded to the consumer,
the delay awaited before the next poll begins, and whether the loop
continues.  The source sleeps `poll_interval` only when the poll returned
no messages or raised an `httpx.HTTPError`; after a non-empty poll the next
iteration starts with no delay. -/
structure PollStep where
  yielded : List Json
  delay : Nat
  continues : Bool

def receiveMessagesStep (pollInterval : Nat) (closed : Bool) (r : PollResult) : PollStep :=
  if closed then ⟨[], 0, false⟩
  else
    match r with
    | .msgs ms => ⟨ms, if ms.isEmpty then pollInterval else 0, true⟩
    | .httpError _ => ⟨[], pollInterval, true⟩

/-! ### Helper lemmas -/

theorem lookupKey_removeKey {α : Type} (l : List (String × α)) (k : String) :
    lookupKey (removeKey l k) k = none := by
  induction l with
  | nil => rfl
  | cons p rest ih =>
    by_cases h : p.1 == k
    · simpa [removeKey, List.filter_cons, h] using ih
    · simpa [removeKey, List.filter_cons, h, lookupKey] using ih

theorem lookupKey_map_snd {α β : Type} (l : List (String × α)) (g : α → β) (k : String) :
    lookupKey (l.map (fun p => (p.1, g p.2))) k = (lookupKey l k).map g := by
  induction l with
  | nil => rfl
  | cons p rest ih =>
    by_cases h : p.1 == k <;> simp [lookupKey, h, ih]

theorem validateRequest_id_valid {raw : Json} {req : MCPRequest}
    (h : validateRequest raw = .ok req) : isValidId req.id = true := by
  unfold validateRequest at h
  repeat' split at h
  all_goals try (injection h with h; rw [← h]; clear h)
  all_goals simp_all

theorem isValidId_str (s : String) : isValidId (Json.str s) = true := rfl

theorem isValidId_int (n : Int) : isValidId (Json.int n) = true := rfl

theorem handleNotification_sends_nothing (st : HandlerState) (raw : Json) :
    (ProtocolHandler.handleNotification st raw).1 = [] := by
  unfold ProtocolHandler.handleNotification
  split
  · rfl
  · split
    · rfl
    · split <;> rfl

/-! ### Claims -/

/-- C6: every constructed Response satisfies exactly-one-of(result, error):
constructing an `MCPResponse` with both `result` and `error` present, or
with neither present, fails with a (programming-error) exception rather
than producing a wire message; with exactly one present the construction
succeeds. -/
theorem C6_response_exactly_one (id : Json) (result : Option Json) (error : Option MCPError)
    (hid : isValidId id = true) (hres : resultFieldValid result = true) :
    (result = none → error = none →
      MCPResponse.make id result error = .error (.generic msgNeither)) ∧
    (∀ r e, result = some r → error = some e →
      MCPResponse.make id result error = .error (.generic msgBoth)) ∧
    (∀ r, result = some r → error = none →
      MCPResponse.make id result error = .ok ⟨id, result, error⟩) ∧
    (∀ e, result = none → error = some e →
      MCPResponse.make id result error = .ok ⟨id, result, error⟩) := by
  refine ⟨?_, ?_, ?_, ?_⟩
  · rintro rfl rfl; simp [MCPResponse.make, hid, hres]
  · rintro r e rfl rfl; simp [MCPResponse.make, hid, hres]
  · rintro r rfl rfl; simp [MCPResponse.make, hid, hres]
  · rintro e rfl rfl; simp [MCPResponse.make, hid, hres]

/-- Witness for C6 at a concrete input: the neither-present construction
fails. -/
theorem C6_response_exactly_one_witness :
    isValidId (Json.str "1") = true ∧ resultFieldValid none = true ∧
    MCPResponse.make (Json.str "1") none none = .error (.generic msgNeither) :=
  ⟨rfl, rfl, (C6_response_exactly_one (Json.str "1") none none rfl rfl).1 rfl rfl⟩

/-- C5: an inbound Notification (a payload with `method` and no `id`) is
never answered with any Response — whatever `_handle_notification` does
(invalid payload, no registered handler, handler success, handler raising),
it transmits nothing, and `_process_message` returns it as a clean
no-response outcome. -/
theorem C5_notification_never_answered (st : HandlerState) (raw : Json)
    (hobj : raw.isObj = true)
    (hver : isJsonrpc20 (raw.pyGet "jsonrpc") = true)
    (hid : raw.hasKey "id" = false)
    (hm : raw.hasKey "method" = true) :
    ProtocolHandler.processMessage st raw = (st, .ok []) ∧
    (∀ st2 raw2, (ProtocolHandler.handleNotification st2 raw2).1 = []) := by
  constructor
  · simp [ProtocolHandler.processMessage, hobj, hver, hid, hm,
      handleNotification_sends_nothing]
  · exact handleNotification_sends_nothing

/-- Witness for C5: a notification whose registered handler raises still
produces no response. -/
theorem C5_notification_never_answered_witness :
    (Json.obj [("jsonrpc", Json.str "2.0"), ("method", Json.str "m")]).isObj = true ∧
    ProtocolHandler.processMessage
      ⟨true, [], [("m", fun _ => HandlerOutcome.raised "boom")], [], 0⟩
      (Json.obj [("jsonrpc", Json.str "2.0"), ("method", Json.str "m")]) =
      (⟨true, [], [("m", fun _ => HandlerOutcome.raised "boom")], [], 0⟩, .ok []) :=
  ⟨rfl,
   (C5_notification_never_answered
     ⟨true, [], [("m", fun _ => HandlerOutcome.raised "boom")], [], 0⟩
     (Json.obj [("jsonrpc", Json.str "2.0"), ("method", Json.str "m")])
     rfl rfl rfl rfl).1⟩

/-- C8 counterexample: a poll of the session endpoint that returned one
message is followed by no delay at all — the next poll begins immediately,
tighter than the configured interval (here 1), so the claim's "after every
poll ... no sooner than the configured interval later" is false on the
code. -/
theorem C8_counterexample :
    (receiveMessagesStep 1 false (.msgs [Json.obj []])).delay = 0 ∧
    ¬ (1 ≤ (receiveMessagesStep 1 false (.msgs [Json.obj []])).delay) := by
  exact ⟨rfl, by decide⟩

/-- C8 as amended: the receive loop backs off to the configured interval
after an empty poll and after a transient HTTP poll failure (which does not
terminate the loop), but after a poll that returned messages the next poll
begins immediately with no delay. -/
theorem C8_amended_poll_backoff (pollInterval : Nat) (e : String) (m : Json) (ms : List Json) :
    receiveMessagesStep pollInterval false (.msgs []) = ⟨[], pollInterval, true⟩ ∧
    receiveMessagesStep pollInterval false (.httpError e) = ⟨[], pollInterval, true⟩ ∧
    receiveMessagesStep pollInterval false (.msgs (m :: ms)) = ⟨m :: ms, 0, true⟩ :=
  ⟨rfl, rfl, rfl⟩

/-- C2: the claim requires ids canonicalized at insertion and lookup so that
integer `1` and string `"1"` resolve the same pending slot.  The code
violates this in `Transport._handle_response`: `send_request` stores the
slot under the string key `"1"`, but an inbound response carrying the
integer id `1` fails the dict membership test (a Python int is never equal
to a str key), so the slot stays pending; the lexically equal string id
`"1"` does resolve it. -/
theorem C2_transport_id_not_canonicalized :
    Transport.sendRequestInsert ⟨0, []⟩ = (⟨1, [("1", FutureState.pending)]⟩, "1") ∧
    Transport.handleResponse ⟨1, [("1", FutureState.pending)]⟩
      (Json.obj [("jsonrpc", Json.str "2.0"), ("id", Json.int 1), ("result", Json.obj [])]) =
      ⟨1, [("1", FutureState.pending)]⟩ ∧
    lookupKey (Transport.handleResponse ⟨1, [("1", FutureState.pending)]⟩
      (Json.obj [("jsonrpc", Json.str "2.0"), ("id", Json.str "1"),
        ("result", Json.obj [])])).pendingRequests "1" =
      some (FutureState.result (Json.obj [])) :=
  ⟨rfl, rfl, rfl⟩

def c7St : HandlerState := ⟨true, [], [], [], 0⟩

def c7Raw : Json :=
  Json.obj [("jsonrpc", Json.str "2.0"), ("id", Json.int 1), ("method", Json.str "nope")]

/-- C7: an inbound Request whose method has no registered request handler is
answered with exactly one Response whose error code is METHOD_NOT_FOUND
(-32601). -/
theorem C7_method_not_found (st : HandlerState) (raw : Json) (req : MCPRequest)
    (hrun : st.running = true)
    (hval : validateRequest raw = .ok req)
    (hh : lookupKey st.requestHandlers req.method = none) :
    ProtocolHandler.handleRequest st raw =
      .ok [⟨req.id, none, some ⟨ErrorCode.METHOD_NOT_FOUND,
        "Method " ++ sglQuote ++ req.method ++ sglQuote ++ " not found", none⟩⟩] ∧
    ErrorCode.METHOD_NOT_FOUND = -32601 := by
  have hid := validateRequest_id_valid hval
  constructor
  · simp [ProtocolHandler.handleRequest, hval, hh, ProtocolHandler.sendErrorResponse,
      ProtocolHandler.sendResponse, MCPResponse.make, hrun, hid, resultFieldValid]
  · rfl

/-- Witness for C7 at the concrete request
`{"jsonrpc":"2.0","id":1,"method":"nope"}` against an empty dispatch
table. -/
theorem C7_method_not_found_witness :
    c7St.running = true ∧
    validateRequest c7Raw = .ok ⟨Json.int 1, "nope", none⟩ ∧
    ProtocolHandler.handleRequest c7St c7Raw =
      .ok [⟨Json.int 1, none, some ⟨ErrorCode.METHOD_NOT_FOUND,
        "Method " ++ sglQuote ++ "nope" ++ sglQuote ++ " not found", none⟩⟩] :=
  ⟨rfl, rfl,
   (C7_method_not_found c7St c7Raw ⟨Json.int 1, "nope", none⟩ rfl rfl rfl).1⟩

def c10St : HandlerState := ⟨true, [("m", fun _ => HandlerOutcome.ok none)], [], [], 0⟩

def c10Raw : Json :=
  Json.obj [("jsonrpc", Json.str "2.0"), ("id", Json.int 2), ("method", Json.str "m")]

/-- C10: a Request whose registered handler completes successfully but
returns no result mapping (Python `None`) is answered with an error
Response carrying INTERNAL_ERROR, not a success Response: `send_response`
constructs `MCPResponse(id, result=None, error=None)`, whose post-init
check raises, and `_handle_request` converts that exception through its
handler-failure path. -/
theorem C10_none_result_internal_error (st : HandlerState) (raw : Json) (req : MCPRequest)
    (h : Json → HandlerOutcome)
    (hrun : st.running = true)
    (hval : validateRequest raw = .ok req)
    (hh : lookupKey st.requestHandlers req.method = some h)
    (hres : h (paramsOrEmpty req.params) = .ok none) :
    ProtocolHandler.handleRequest st raw =
      .ok [⟨req.id, none, some ⟨ErrorCode.INTERNAL_ERROR, msgNeither, none⟩⟩] ∧
    ErrorCode.INTERNAL_ERROR = -32603 := by
  have hid := validateRequest_id_valid hval
  constructor
  · simp [ProtocolHandler.handleRequest, hval, hh, hres, ProtocolHandler.sendResponse,
      ProtocolHandler.sendErrorResponse, MCPResponse.make, hrun, hid, isValidId_str,
      resultFieldValid, PyErr.msg]
  · rfl

/-- Witness for C10: a registered handler that returns `None` yields the
INTERNAL_ERROR response whose message is the post-init complaint. -/
theorem C10_none_result_internal_error_witness :
    c10St.running = true ∧
    (fun (_ : Json) => HandlerOutcome.ok none) (paramsOrEmpty none) = .ok none ∧
    ProtocolHandler.handleRequest c10St c10Raw =
      .ok [⟨Json.int 2, none, some ⟨ErrorCode.INTERNAL_ERROR, msgNeither, none⟩⟩] :=
  ⟨rfl, rfl,
   (C10_none_result_internal_error c10St c10Raw ⟨Json.int 2, "m", none⟩
     (fun _ => HandlerOutcome.ok none) rfl rfl rfl rfl).1⟩

def c9St : HandlerState := ⟨true, [("m", fun _ => HandlerOutcome.raised "boom")], [], [], 0⟩

def c9Raw : Json :=
  Json.obj [("jsonrpc", Json.str "2.0"), ("id", Json.int 5), ("method", Json.str "m")]

/-- C9 counterexample: for the inbound request
`{"jsonrpc":"2.0","id":5,"method":"m"}` whose registered handler raises,
the transmitted Response carries the id as the integer 5, not the decimal
string "5" — the claim's "succeeds or fails" is false on the failure
path, where `_handle_request` passes `request.id` raw to
`_send_error_response`. -/
theorem C9_counterexample :
    ProtocolHandler.handleRequest c9St c9Raw =
      .ok [⟨Json.int 5, none, some ⟨ErrorCode.INTERNAL_ERROR, "boom", none⟩⟩] ∧
    Json.int 5 ≠ Json.str "5" :=
  ⟨rfl, fun h => Json.noConfusion h⟩

/-- C9 as amended: for a Request carrying integer id `n` with a registered
handler, only the success path stringifies the id — the Response for a
successful handler return carries `str(n)`, while the Response for a
raising handler echoes the integer id unchanged. -/
theorem C9_amended_id_stringified_only_on_success (st : HandlerState) (raw : Json)
    (req : MCPRequest) (n : Int) (h : Json → HandlerOutcome)
    (hrun : st.running = true)
    (hval : validateRequest raw = .ok req)
    (hid : req.id = .int n)
    (hh : lookupKey st.requestHandlers req.method = some h) :
    (∀ fs, h (paramsOrEmpty req.params) = .ok (some (.obj fs)) →
      ProtocolHandler.handleRequest st raw =
        .ok [⟨.str (toString n), some (.obj fs), none⟩]) ∧
    (∀ e, h (paramsOrEmpty req.params) = .raised e →
      ProtocolHandler.handleRequest st raw =
        .ok [⟨.int n, none, some ⟨ErrorCode.INTERNAL_ERROR, e, none⟩⟩]) := by
  constructor
  · intro fs hres
    simp [ProtocolHandler.handleRequest, hval, hh, hres, hid,
      ProtocolHandler.sendResponse, MCPResponse.make, hrun, isValidId_str,
      resultFieldValid, jsonPyStr]
  · intro e hres
    simp [ProtocolHandler.handleRequest, hval, hh, hres, hid,
      ProtocolHandler.sendErrorResponse, ProtocolHandler.sendResponse,
      MCPResponse.make, hrun, isValidId_int, resultFieldValid]

def c9SuccSt : HandlerState :=
  ⟨true, [("m", fun _ => HandlerOutcome.ok (some (Json.obj [])))], [], [], 0⟩

/-- Witness for C9's amended statement at concrete inputs: a successful
handler produces the stringified id, a raising handler the integer id. -/
theorem C9_amended_witness :
    ProtocolHandler.handleRequest c9SuccSt c9Raw =
      .ok [⟨Json.str "5", some (Json.obj []), none⟩] ∧
    ProtocolHandler.handleRequest c9St c9Raw =
      .ok [⟨Json.int 5, none, some ⟨ErrorCode.INTERNAL_ERROR, "boom", none⟩⟩] :=
  ⟨(C9_amended_id_stringified_only_on_success c9SuccSt c9Raw ⟨Json.int 5, "m", none⟩ 5
      (fun _ => HandlerOutcome.ok (some (Json.obj []))) rfl rfl rfl rfl).1 [] rfl,
   (C9_amended_id_stringified_only_on_success c9St c9Raw ⟨Json.int 5, "m", none⟩ 5
      (fun _ => HandlerOutcome.raised "boom") rfl rfl rfl rfl).2 "boom" rfl⟩

def c1St : HandlerState := ⟨true, [], [], [], 0⟩

def c1Raw : Json := Json.obj [("id", Json.int 7)]

/-- C1 counterexample: the inbound payload `{"id": 7}` (no `jsonrpc`) is
answered with error code INTERNAL_ERROR (-32603), not INVALID_REQUEST
(-32600): the version check raises a plain `ValueError`, which falls into
`_process_message`'s generic `except Exception` clause, not the
`except ValidationError` clause that would send INVALID_REQUEST. -/
theorem C1_counterexample :
    ProtocolHandler.processMessage c1St c1Raw =
      (c1St, .ok [⟨Json.int 7, none,
        some ⟨ErrorCode.INTERNAL_ERROR, "Internal error", none⟩⟩]) ∧
    ErrorCode.INTERNAL_ERROR ≠ ErrorCode.INVALID_REQUEST :=
  ⟨rfl, by decide⟩

/-- C1 as amended: a decoded mapping whose protocol-version field is absent
or mismatched is answered with an error Response carrying code
INTERNAL_ERROR (-32603) and message "Internal error", echoing the
recovered id; when no id can be recovered the message is dropped silently
with no response sent. -/
theorem C1_amended_version_mismatch (st : HandlerState) (raw : Json)
    (hrun : st.running = true)
    (hobj : raw.isObj = true)
    (hver : isJsonrpc20 (raw.pyGet "jsonrpc") = false) :
    (raw.pyGet "id" = none → ProtocolHandler.processMessage st raw = (st, .ok [])) ∧
    (∀ v, raw.pyGet "id" = some v → isValidId v = true →
      ProtocolHandler.processMessage st raw =
        (st, .ok [⟨v, none, some ⟨ErrorCode.INTERNAL_ERROR, "Internal error", none⟩⟩])) := by
  constructor
  · intro hnone
    simp [ProtocolHandler.processMessage, hobj, hver, hnone,
      ProtocolHandler.sendErrorResponse]
  · intro v hsome hvalid
    simp [ProtocolHandler.processMessage, hobj, hver, hsome,
      ProtocolHandler.sendErrorResponse, ProtocolHandler.sendResponse,
      MCPResponse.make, hrun, hvalid, resultFieldValid]

/-- Witness for C1's amended statement: the scenario payload `{"id": 7}`
gets the INTERNAL_ERROR response echoing id 7, and `{"jsonrpc": "1.0"}`
(no recoverable id) is dropped silently. -/
theorem C1_amended_witness :
    ProtocolHandler.processMessage c1St c1Raw =
      (c1St, .ok [⟨Json.int 7, none,
        some ⟨ErrorCode.INTERNAL_ERROR, "Internal error", none⟩⟩]) ∧
    ProtocolHandler.processMessage c1St (Json.obj [("jsonrpc", Json.str "1.0")]) =
      (c1St, .ok []) :=
  ⟨(C1_amended_version_mismatch c1St c1Raw rfl rfl rfl).2 (Json.int 7) rfl rfl,
   (C1_amended_version_mismatch c1St (Json.obj [("jsonrpc", Json.str "1.0")])
     rfl rfl rfl).1 rfl⟩

/-- C3: a `send_request` whose await times out raises the timeout
`MessageError` naming the method and the duration, and the correlation
table no longer contains the request's id afterwards; the `finally` block
removes the entry on every exit path (resolved, failed, or timed out). -/
theorem C3_timeout_removes_pending (st : HandlerState) (method : String)
    (params : Option Json) (timeout : Nat)
    (hrun : st.running = true) :
    (ProtocolHandler.sendRequest st method params timeout .timedOut).2 =
      .error (.generic
        ("Request " ++ method ++ " timed out after " ++ toString timeout ++ "s")) ∧
    (∀ outcome, lookupKey
      (ProtocolHandler.sendRequest st method params timeout outcome).1.pendingRequests
      (toString (st.sequenceNumber + 1)) = none) := by
  constructor
  · simp [ProtocolHandler.sendRequest, ProtocolHandler.nextSequenceNumber, hrun, awaitResult]
  · intro outcome
    simp [ProtocolHandler.sendRequest, ProtocolHandler.nextSequenceNumber, hrun,
      lookupKey_removeKey]

/-- Witness for C3: a timed-out `send_request` for method "slow" with
timeout 30 on a fresh running handler. -/
theorem C3_timeout_removes_pending_witness :
    (ProtocolHandler.sendRequest ⟨true, [], [], [], 0⟩ "slow" none 30 .timedOut).2 =
      .error (.generic "Request slow timed out after 30s") ∧
    lookupKey (ProtocolHandler.sendRequest ⟨true, [], [], [], 0⟩ "slow" none 30
      .timedOut).1.pendingRequests "1" = none := by
  have h := C3_timeout_removes_pending ⟨true, [], [], [], 0⟩ "slow" none 30 rfl
  exact ⟨h.1, h.2 .timedOut⟩

/-- C4: stopping a Running handler clears the running flag and the
correlation table, fails every still-unresolved pending future with the
"Protocol handler stopped" error, and a `send_request` caller suspended on
such a future sees its await re-raise exactly that error instead of
suspending forever. -/
theorem C4_stop_fails_pending (st : HandlerState) (hrun : st.running = true) :
    (ProtocolHandler.stop st).1.running = false ∧
    (ProtocolHandler.stop st).1.pendingRequests = [] ∧
    (∀ k, lookupKey st.pendingRequests k = some FutureState.pending →
      lookupKey (ProtocolHandler.stop st).2 k =
        some (FutureState.failed "Protocol handler stopped")) ∧
    (∀ method timeout,
      awaitResult method timeout (.failed "Protocol handler stopped") =
        .error (.generic "Protocol handler stopped")) := by
  refine ⟨?_, ?_, ?_, fun method timeout => rfl⟩
  · simp [ProtocolHandler.stop, hrun]
  · simp [ProtocolHandler.stop, hrun]
  · intro k hk
    simp only [ProtocolHandler.stop, hrun, Bool.not_true, Bool.false_eq_true, if_false]
    rw [lookupKey_map_snd, hk]
    rfl

/-- Witness for C4: stopping a running handler with one outstanding pending
request fails that future with the handler-stopped error. -/
theorem C4_stop_fails_pending_witness :
    (ProtocolHandler.stop ⟨true, [], [], [("1", FutureState.pending)], 1⟩).1.running = false ∧
    lookupKey (ProtocolHandler.stop ⟨true, [], [], [("1", FutureState.pending)], 1⟩).2 "1" =
      some (FutureState.failed "Protocol handler stopped") := by
  have h := C4_stop_fails_pending ⟨true, [], [], [("1", FutureState.pending)], 1⟩ rfl
  exact ⟨h.1, h.2.2.1 "1" rfl⟩
